import Mathlib

/-!
Verification of the enva environment-manager core: a shallow embedding of
the package-manager detector (`src/package_manager.rs`), the micromamba
manager (`src/micromamba.rs`), the env-run command (`src/env_run.rs`) and
the bulk environment-creation command (`src/env.rs`), together with
theorems settling the specification claims about them.

Filesystem, network and subprocess effects are modelled as explicit
oracle parameters (existence predicates, exit codes, download outcomes);
every function body mirrors the control flow of the Rust source it embeds.
-/

namespace Enva

/-! ## Error taxonomy (`src/error.rs`, `EnvError`)

Only the constructors reachable from the embedded code are modelled; each
carries its message string exactly as the Rust code formats it. -/

inductive EnvError where
  | Config (msg : String)
  | Validation (msg : String)
  | FileOperation (msg : String)
  | Network (msg : String)
  | PermissionDenied (msg : String)
  | Execution (msg : String)
  | Template (msg : String)
deriving DecidableEq, Repr

/-- `Display` of `EnvError` as produced by the `thiserror` attributes in
`src/error.rs` (e.g. `#[error("Execution error: {0}")]`). -/
def EnvError.display : EnvError → String
  | .Config m => "Configuration error: " ++ m
  | .Validation m => "Validation error: " ++ m
  | .FileOperation m => "File operation failed: " ++ m
  | .Network m => "Network error: " ++ m
  | .PermissionDenied m => "Permission denied: " ++ m
  | .Execution m => "Execution error: " ++ m
  | .Template m => "Template rendering failed: " ++ m

/-! ## String helpers mirroring the Rust standard library operations used
by the source (substring containment, whitespace tokenization, `lines`). -/

/-- `needle` occurs as a contiguous run inside `hay` (chars). Mirrors
Rust `str::contains` with a string pattern. -/
def infixB (needle : List Char) : List Char → Bool
  | [] => needle.isEmpty
  | c :: rest => needle.isPrefixOf (c :: rest) || infixB needle rest

/-- Rust `hay.contains(needle)` for a string pattern. -/
def strContainsSub (hay needle : String) : Bool :=
  infixB needle.data hay.data

/-- Rust `s.contains(c)` for a char pattern. -/
def strContainsChar (s : String) (c : Char) : Bool :=
  s.data.contains c

/-- Rust `s.starts_with(pre)`. -/
def strStartsWith (s pre : String) : Bool :=
  pre.data.isPrefixOf s.data

/-- Rust `str::trim`: strip leading and trailing whitespace. -/
def rustTrim (s : String) : String :=
  String.mk (((s.data.dropWhile Char.isWhitespace).reverse.dropWhile
    Char.isWhitespace).reverse)

/-- Helper for `splitWhitespace`: `acc` holds the current token reversed. -/
def wsSplitAux : List Char → List Char → List String
  | [], acc => if acc.isEmpty then [] else [String.mk acc.reverse]
  | c :: rest, acc =>
    if c.isWhitespace then
      if acc.isEmpty then wsSplitAux rest []
      else String.mk acc.reverse :: wsSplitAux rest []
    else wsSplitAux rest (c :: acc)

/-- Rust `str::split_whitespace`: tokens separated by whitespace, empty
tokens dropped. -/
def splitWhitespace (s : String) : List String :=
  wsSplitAux s.data []

/-- Helper for `rustLines`: `acc` holds the current line reversed; a line
terminated by a newline has a trailing carriage return stripped. -/
def rustLinesAux : List Char → List Char → List String
  | [], acc => if acc.isEmpty then [] else [String.mk acc.reverse]
  | c :: rest, acc =>
    if c = '\n' then
      let acc1 := match acc with
        | '\r' :: t => t
        | other => other
      String.mk acc1.reverse :: rustLinesAux rest []
    else rustLinesAux rest (c :: acc)

/-- Rust `str::lines`: split at newlines, recognizing a carriage-return /
newline pair; a final empty fragment is not a line. -/
def rustLines (s : String) : List String :=
  rustLinesAux s.data []

/-! ## Backend descriptor and detector (`src/package_manager.rs`) -/

/-- `PackageManager` — the three supported backend kinds plus the absent
state (`src/package_manager.rs:15`). -/
inductive PackageManager where
  | Conda
  | Mamba
  | Micromamba
  | None
deriving DecidableEq, Repr

/-- `PackageManager::command` (`src/package_manager.rs:24`). -/
def PackageManager.command : PackageManager → String
  | .Conda => "conda"
  | .Mamba => "mamba"
  | .Micromamba => "micromamba"
  | .None => ""

/-- `PackageManager::run_syntax` (`src/package_manager.rs:34`). -/
def PackageManager.run_syntax (pm : PackageManager) (env : String) : String :=
  match pm with
  | .Conda => "conda run -n " ++ env
  | .Mamba => "mamba run -n " ++ env
  | .Micromamba => "micromamba run -n " ++ env
  | .None => env

/-- `PackageManagerDetector` state (`src/package_manager.rs:56`): the memo
field and the probe priority order. -/
structure PackageManagerDetector where
  detected : Option PackageManager
  detection_order : List PackageManager
deriving DecidableEq, Repr

/-- `PackageManagerDetector::new` (`src/package_manager.rs:63`): no memo,
priority conda → mamba → micromamba. -/
def PackageManagerDetector.new : PackageManagerDetector :=
  { detected := none
    detection_order := [.Conda, .Mamba, .Micromamba] }

/-- First backend in the probe order passing the availability check; the
host's `check_available` result is the oracle `avail`. -/
def findFirstAvailable (avail : PackageManager → Bool) :
    List PackageManager → Option PackageManager
  | [] => none
  | p :: rest => if avail p then some p else findFirstAvailable avail rest

/-- `PackageManagerDetector::detect` (`src/package_manager.rs:83`):
memoized priority probe; resolves to the `None` kind (still `Ok`) when no
backend passes. Returns the result paired with the updated detector. -/
def PackageManagerDetector.detect (avail : PackageManager → Bool)
    (d : PackageManagerDetector) :
    Except EnvError (PackageManager × PackageManagerDetector) :=
  match d.detected with
  | some pm => .ok (pm, d)
  | none =>
    match findFirstAvailable avail d.detection_order with
    | some pm => .ok (pm, { d with detected := some pm })
    | none => .ok (.None, { d with detected := some .None })

/-- `PackageManagerDetector::detect_specific` (`src/package_manager.rs:162`):
use the forced kind if it passes the availability check, otherwise fall
back to the standard `detect` probe. -/
def PackageManagerDetector.detect_specific (avail : PackageManager → Bool)
    (pm : PackageManager) (d : PackageManagerDetector) :
    Except EnvError (PackageManager × PackageManagerDetector) :=
  if avail pm then .ok (pm, { d with detected := some pm })
  else d.detect avail

/-- `PackageManagerDetector::detect_with_env_override`
(`src/package_manager.rs:137`): the `ENVA_PACKAGE_MANAGER` variable (here
the oracle `envVar`, already lowercased by the caller as in the source's
`to_lowercase`) forces a kind via `detect_specific`; unknown or absent
values fall through to `detect`. -/
def PackageManagerDetector.detect_with_env_override
    (avail : PackageManager → Bool) (envVar : Option String)
    (d : PackageManagerDetector) :
    Except EnvError (PackageManager × PackageManagerDetector) :=
  match envVar with
  | some v =>
    if v = "conda" then d.detect_specific avail .Conda
    else if v = "mamba" then d.detect_specific avail .Mamba
    else if v = "micromamba" then d.detect_specific avail .Micromamba
    else d.detect avail
  | none => d.detect avail

/-! ## System environment listing parser (`src/micromamba.rs:1610`,
`parse_conda_env_list`) -/

/-- `CondaEnvironment` (`src/micromamba.rs:1591`). The Rust field `prefix`
is a Lean keyword and is rendered `prefixPath`. -/
structure CondaEnvironment where
  name : String
  prefixPath : String
  is_active : Bool
deriving DecidableEq, Repr

/-- One iteration of the `parse_conda_env_list` loop body
(`src/micromamba.rs:1614`–`1649`): `none` means the line is skipped
(comment, blank, fewer than two tokens, or an active marker with no
third token). -/
def parseCondaEnvLine (line : String) : Option CondaEnvironment :=
  if strStartsWith line "#" || rustTrim line = "" then none
  else
    match splitWhitespace line with
    | name :: second :: rest =>
      if second = "*" then
        match rest with
        | p :: _ => some { name := name, prefixPath := p, is_active := true }
        | [] => none
      else some { name := name, prefixPath := second, is_active := false }
    | _ => none

/-- `parse_conda_env_list` (`src/micromamba.rs:1610`): iterate the lines,
collecting the parsed entries; the function never produces an error. -/
def parse_conda_env_list (content : String) :
    Except EnvError (List CondaEnvironment) :=
  .ok ((rustLines content).filterMap parseCondaEnvLine)

/-! ## YAML validation (`src/micromamba.rs:1247`, `validate_yaml`)

The `serde_yaml::Value` tree is embedded as `Yaml`; file reading and YAML
parsing are environment I/O, so `validate_yaml_doc` models the body of
`validate_yaml` from the successfully parsed document on. Mapping keys are
modelled as strings, which covers every key the code looks up. -/

inductive Yaml where
  | null
  | bool (b : Bool)
  | num (n : Int)
  | str (s : String)
  | seq (xs : List Yaml)
  | map (entries : List (String × Yaml))
deriving Repr

/-- `serde_yaml::Value::get` with a string key: a lookup in a mapping,
`None` on every other variant. -/
def Yaml.get (v : Yaml) (key : String) : Option Yaml :=
  match v with
  | .map entries => entries.lookup key
  | _ => none

/-- `serde_yaml::Value::as_str`. -/
def Yaml.asStr : Yaml → Option String
  | .str s => some s
  | _ => none

/-- `serde_yaml::Value::as_sequence`. -/
def Yaml.asSequence : Yaml → Option (List Yaml)
  | .seq xs => some xs
  | _ => none

/-- `ValidationDetails` (`src/micromamba.rs:129`). -/
structure ValidationDetails where
  syntax_valid : Bool
  dependencies_resolvable : Bool
  version_conflicts : List String
  channels_accessible : Bool
deriving DecidableEq, Repr

/-- `ValidationResult` (`src/micromamba.rs:138`). -/
structure ValidationResult where
  dry_run : Bool
  environment : String
  yaml_file : String
  validation : ValidationDetails
  estimated_packages : Nat
  estimated_size_mb : Nat
deriving DecidableEq, Repr

/-- `MicromambaManager::validate_yaml` (`src/micromamba.rs:1247`–`1295`)
from the parsed document on: extract the declared name (default
`"unknown"`), set `syntax_valid` iff a `dependencies` key is present,
count the dependency sequence (0 when absent or not a sequence), and
estimate 10 MB per package. -/
def validate_yaml_doc (config : Yaml) (yamlFile : String) : ValidationResult :=
  let env_name := ((config.get "name").bind Yaml.asStr).getD "unknown"
  let sv := (config.get "dependencies").isSome
  let estimated_packages :=
    (((config.get "dependencies").bind Yaml.asSequence).map List.length).getD 0
  let estimated_size_mb := estimated_packages * 10
  { dry_run := true
    environment := env_name
    yaml_file := yamlFile
    validation :=
      { syntax_valid := sv
        dependencies_resolvable := true
        version_conflicts := []
        channels_accessible := true }
    estimated_packages := estimated_packages
    estimated_size_mb := estimated_size_mb }

/-- Transcription of claim C1's wording (not of the code): the document
"contains a non-empty dependency list", i.e. the `dependencies` key maps
to a non-empty sequence. Used only to compare the claim against
`validate_yaml_doc`. -/
def specHasNonEmptyDepList (config : Yaml) : Bool :=
  match (config.get "dependencies").bind Yaml.asSequence with
  | some (_ :: _) => true
  | _ => false

/-! ## Runtime exit-code handling (`src/micromamba.rs:1088`,
`run_in_environment_extended`, and `src/env_run.rs:84`,
`execute_env_run`)

A finished subprocess is summarized by its `ExitStatus`, modelled as
`Option Nat`: `some c` is a normal exit with code `c` (on the supported
Unix platforms `c < 256`), `none` is a signal termination
(`status.code()` returns `None`). `status.success()` holds exactly for
`some 0`. -/

/-- Rust `format!("{:?}", status.code())` for a non-negative code. -/
def exitCodeDebug : Option Nat → String
  | none => "None"
  | some c => "Some(" ++ Nat.repr c ++ ")"

/-- The message built at `src/micromamba.rs:1164`. -/
def commandFailedMsg (code : Option Nat) : String :=
  "Command failed with exit code " ++ exitCodeDebug code

/-- Exit handling of `run_in_environment_extended`
(`src/micromamba.rs:1163`–`1170`): success for exit code 0, otherwise an
`Execution` error carrying the formatted code. -/
def run_in_environment_extended_exit (exit : Option Nat) :
    Except EnvError Unit :=
  if exit = some 0 then .ok ()
  else .error (.Execution (commandFailedMsg exit))

/-- The SIGPIPE special case of `execute_env_run`
(`src/env_run.rs:146`–`167`): an error whose display contains
`"exit code Some(141)"` is converted to success. -/
def handleRunResult (r : Except EnvError Unit) : Except EnvError Unit :=
  match r with
  | .ok _ => .ok ()
  | .error e =>
    if strContainsSub e.display "exit code Some(141)" then .ok ()
    else .error e

/-- The run-in-environment invocation as `execute_env_run` performs it
once the backend subprocess has terminated with status `exit`. -/
def classified_run (exit : Option Nat) : Except EnvError Unit :=
  handleRunResult (run_in_environment_extended_exit exit)

/-! ## The env-run command (`src/env_run.rs`) -/

/-- `EnvRunArgs` (`src/env_run.rs:15`); paths are rendered as strings. -/
structure EnvRunArgs where
  name : Option String
  command : Option String
  script : Option String
  args : List String
  cwd : String
  env : List String
  no_capture : Bool

/-- `EnvRunArgs::get_env_name` (`src/env_run.rs:47`). -/
def EnvRunArgs.get_env_name (a : EnvRunArgs) : Except EnvError String :=
  match a.name with
  | some n => .ok n
  | none =>
    match a.args with
    | n :: _ => .ok n
    | [] => .error (.Validation "Missing environment name")

/-- `EnvRunArgs::get_command` (`src/env_run.rs:62`). -/
def EnvRunArgs.get_command (a : EnvRunArgs) : Except EnvError String :=
  match a.command with
  | some c => .ok c
  | none =>
    let start_idx := if a.name.isSome then 0 else 1
    let rest := a.args.drop start_idx
    if rest.isEmpty then .error (.Validation "Missing command")
    else .ok (String.intercalate " " rest)

/-- `validate_args` (`src/env_run.rs:193`–`237`); the filesystem check on
the script path is the oracle `scriptExists`. -/
def validate_args (a : EnvRunArgs) (scriptExists : String → Bool) :
    Except EnvError Unit :=
  let has_positional_cmd :=
    if a.name.isSome then !a.args.isEmpty else a.args.length > 1
  if a.command.isNone && a.script.isNone && !has_positional_cmd then
    .error (.Validation
      "Must specify either --command, --script, or positional command")
  else if a.command.isSome && a.script.isSome then
    .error (.Validation "Cannot specify both --command and --script")
  else
    match a.script with
    | some s =>
      if !scriptExists s then
        .error (.Validation ("Script file does not exist: " ++ s))
      else
        envPairsCheck a.env
    | none => envPairsCheck a.env
where
  /-- The `KEY=VALUE` format loop (`src/env_run.rs:227`–`234`). -/
  envPairsCheck : List String → Except EnvError Unit
    | [] => .ok ()
    | p :: rest =>
      if !strContainsChar p '=' then
        .error (.Validation ("Invalid environment variable format: " ++ p
          ++ ". Expected KEY=VALUE"))
      else envPairsCheck rest

/-- The `full_command` resolution of `execute_env_run`
(`src/env_run.rs:87`–`91`): a script becomes an `Rscript` invocation,
otherwise the command is resolved from the arguments. -/
def resolveFullCommand (a : EnvRunArgs) : Except EnvError String :=
  match a.script with
  | some s => .ok ("Rscript " ++ s)
  | none => a.get_command

/-- `execute_env_run` (`src/env_run.rs:84`–`169`). The oracles are:
`scriptExists` (filesystem), `managerOk` (whether `get_global_manager`
succeeds), `envExistsRes` (the `environment_exists` backend call) and
`exit` (the run subprocess's status, reached only when everything before
it passed). The second component records whether the backend's run
subcommand was invoked. -/
def execute_env_run (a : EnvRunArgs) (scriptExists : String → Bool)
    (managerOk : Bool) (envExistsRes : Except EnvError Bool)
    (exit : Option Nat) : Except EnvError Unit × Bool :=
  match a.get_env_name with
  | .error e => (.error e, false)
  | .ok envName =>
    match resolveFullCommand a with
    | .error e => (.error e, false)
    | .ok _fullCommand =>
      match validate_args a scriptExists with
      | .error e => (.error e, false)
      | .ok _ =>
        if managerOk then
          match envExistsRes with
          | .error e => (.error e, false)
          | .ok ex =>
            if ex then (classified_run exit, true)
            else
              (.error (.Execution
                ("Environment '" ++ envName ++ "' does not exist")), false)
        else
          (.error (.Execution
            "Package manager not found and auto-install failed."), false)

/-! ## Installer (`src/micromamba.rs:518`, `install_micromamba`)

The host is the record `InstallerEnv`: architecture and OS constants,
the override environment variables, the home / executable directories and
a filesystem-existence predicate. Network responses are the oracle
`net : Nat → AttemptOutcome` (outcome of the n-th download attempt), and
`existsAfter` is whether the binary path exists once the download loop
and the nested-directory repair have run. `InstallEffects` counts the
network requests issued and whether an archive extraction was invoked. -/

structure InstallerEnv where
  arch : String
  os : String
  micromambaInstallDirVar : Option String
  xdgDataHomeVar : Option String
  homeDir : Option String
  currentExeDir : Option String
  currentDir : Option String
  createDirOk : Bool
  pathExists : String → Bool

/-- Outcome of one download attempt, classifying the branch the loop body
takes (`src/micromamba.rs:623`–`784`). -/
inductive AttemptOutcome where
  | connectFail (e : String)
  | httpFail (status : String)
  | readFail (e : String)
  | htmlPage
  | bz2Archive (writeOk : Bool) (extractOk : Bool)
  | rawBinary (writeOk : Bool)

/-- Effects of one `install_micromamba` call. -/
structure InstallEffects where
  networkRequests : Nat
  extractInvoked : Bool
deriving DecidableEq, Repr

/-- Architecture resolution (`src/micromamba.rs:520`–`530`). -/
def archTarget (arch : String) : Except EnvError String :=
  if arch = "x86_64" then .ok "x64"
  else if arch = "aarch64" then .ok "aarch64"
  else .error (.Validation ("Unsupported architecture: " ++ arch
    ++ ". Supported: x86_64, aarch64"))

/-- OS/platform resolution (`src/micromamba.rs:533`–`551`). -/
def osPlatform (os arch : String) : Except EnvError String :=
  if os = "linux" then .ok "linux-64"
  else if os = "macos" then
    .ok (if arch = "aarch64" then "osx-arm64" else "osx-64")
  else if os = "windows" then .ok "win-64"
  else .error (.Validation ("Unsupported OS: " ++ os
    ++ ". Supported: linux, macos, windows"))

/-- Primary download URL (`src/micromamba.rs:554`). -/
def primaryUrl (platform : String) : String :=
  "https://micro.mamba.pm/api/micromamba/" ++ platform ++ "/latest"

/-- GitHub fallback URL (`src/micromamba.rs:555`–`568`). -/
def githubUrl (os arch : String) : String :=
  let osPart := if os = "linux" then "linux"
    else if os = "macos" then "osx"
    else if os = "windows" then "win" else "unknown"
  let archPart := if arch = "x86_64" then "64"
    else if arch = "aarch64" then "arm64" else "unknown"
  "https://github.com/mamba-org/micromamba-releases/releases/latest/download/micromamba-"
    ++ osPart ++ "-" ++ archPart

/-- `determine_install_directory` (`src/micromamba.rs:452`–`484`):
override variable → XDG data home → home directory → executable-relative
fallback, else a file-operation error. -/
def determine_install_directory (s : InstallerEnv) : Except EnvError String :=
  match s.micromambaInstallDirVar with
  | some d => .ok (d ++ "/micromamba")
  | none =>
    match s.xdgDataHomeVar with
    | some d => .ok (d ++ "/micromamba/micromamba")
    | none =>
      match s.homeDir with
      | some h => .ok (h ++ "/.local/share/micromamba/micromamba")
      | none =>
        match s.currentExeDir with
        | some d => .ok (d ++ "/micromamba")
        | none => .error (.FileOperation
            "Could not determine installation directory for micromamba")

/-- The absolute-path normalization at `src/micromamba.rs:579`–`587`. -/
def absolutizeInstallDir (s : InstallerEnv) (dir : String) :
    Except EnvError String :=
  if strStartsWith dir "/" then .ok dir
  else
    match s.currentDir with
    | some cwd => .ok (cwd ++ "/" ++ dir)
    | none => .error (.FileOperation
        "Failed to get current directory: unavailable")

/-- The target binary path the installer checks and returns: the resolved
install directory made absolute. -/
def targetBinaryPath (s : InstallerEnv) : Except EnvError String :=
  match determine_install_directory s with
  | .error e => .error e
  | .ok d => absolutizeInstallDir s d

/-- The download loop (`src/micromamba.rs:609`–`785`): one network request
per source; HTML payloads, HTTP failures, connection failures, write
failures and extraction failures record a last error and continue, a
placed raw binary or a successfully extracted archive breaks the loop.
Returns (success, lastError, requests issued, extraction invoked). -/
def downloadLoop (net : Nat → AttemptOutcome) :
    List String → Nat → Option String → Nat → Bool →
    Bool × Option String × Nat × Bool
  | [], _, lastErr, reqs, extr => (false, lastErr, reqs, extr)
  | src :: rest, idx, lastErr, reqs, extr =>
    match net idx with
    | .connectFail e =>
      downloadLoop net rest (idx + 1)
        (some (src ++ ": Connection failed: " ++ e)) (reqs + 1) extr
    | .httpFail status =>
      downloadLoop net rest (idx + 1)
        (some (src ++ ": HTTP " ++ status)) (reqs + 1) extr
    | .readFail e =>
      downloadLoop net rest (idx + 1)
        (some (src ++ ": Failed to read response: " ++ e)) (reqs + 1) extr
    | .htmlPage =>
      downloadLoop net rest (idx + 1)
        (some (src ++ ": Received HTML instead of binary")) (reqs + 1) extr
    | .bz2Archive writeOk extractOk =>
      if !writeOk then
        downloadLoop net rest (idx + 1)
          (some (src ++ ": Failed to write temp file")) (reqs + 1) extr
      else if !extractOk then
        downloadLoop net rest (idx + 1)
          (some (src ++ ": Extraction failed")) (reqs + 1) true
      else (true, lastErr, reqs + 1, true)
    | .rawBinary writeOk =>
      if writeOk then (true, lastErr, reqs + 1, extr)
      else
        downloadLoop net rest (idx + 1)
          (some (src ++ ": Failed to write file")) (reqs + 1) extr

/-- `install_micromamba` (`src/micromamba.rs:518`–`853`). When the target
binary path already exists the whole download/extract flow is skipped and
the path is returned unchanged. Otherwise the two sources are tried in
order; afterwards the nested-`bin/micromamba` repair only rearranges the
filesystem (its result is summarized by the oracle `existsAfter`), and a
still-missing binary yields the aggregated network error. -/
def install_micromamba (s : InstallerEnv) (net : Nat → AttemptOutcome)
    (existsAfter : Bool) : Except EnvError String × InstallEffects :=
  match archTarget s.arch with
  | .error e => (.error e, ⟨0, false⟩)
  | .ok _target =>
    match osPlatform s.os s.arch with
    | .error e => (.error e, ⟨0, false⟩)
    | .ok platform =>
      let sources := ["Official Micromamba", "GitHub Releases"]
      let _urls := [primaryUrl platform, githubUrl s.os s.arch]
      match targetBinaryPath s with
      | .error e => (.error e, ⟨0, false⟩)
      | .ok binaryPath =>
        if s.pathExists binaryPath then (.ok binaryPath, ⟨0, false⟩)
        else if !s.createDirOk then
          (.error (.FileOperation
            "Failed to create installation directory"), ⟨0, false⟩)
        else
          match downloadLoop net sources 0 none 0 false with
          | (_success, lastErr, reqs, extr) =>
            if existsAfter then (.ok binaryPath, ⟨reqs, extr⟩)
            else
              (.error (.Network
                ("Failed to download micromamba from all sources. Last error: "
                  ++ lastErr.getD "Unknown error")), ⟨reqs, extr⟩)

/-! ## Manager data model, clone and global singleton
(`src/micromamba.rs:97`–`194`, `309`–`326`)

The `Arc<Mutex<()>>` creation lock is modelled by the identity of the
underlying mutex: `creation_lock : Nat` names the lock object, and
`Arc::clone` preserves that identity. `LockHeap` is the state of every
mutex in the process (`true` = held); `acquireLock` succeeds only when
the named lock is free, which is what serializes mutating operations. -/

/-- `EnvironmentStatus` (`src/micromamba.rs:114`). -/
inductive EnvironmentStatus where
  | Ready
  | Installed
  | NotInstalled
  | Missing
  | Error (msg : String)
deriving DecidableEq, Repr

/-- `MicromambaEnvironment` (`src/micromamba.rs:99`); the timestamp is an
opaque marker value. -/
structure MicromambaEnvironment where
  name : String
  file_path : String
  tools : List String
  status : EnvironmentStatus
  created_at : Option Nat
deriving DecidableEq, Repr

/-- `VersionConfig` (`src/micromamba.rs:150`). -/
structure VersionConfig where
  python_version : String
  r_version : String
deriving DecidableEq, Repr

/-- `VersionConfig::default` (`src/micromamba.rs:157`). -/
def VersionConfig.default : VersionConfig :=
  { python_version := "3.10.13", r_version := "4.4.3" }

/-- `MicromambaManager` (`src/micromamba.rs:167`); `creation_lock` is the
identity of the shared `Arc<Mutex<()>>`. -/
structure MicromambaManager where
  pm_path : String
  pm_type : PackageManager
  environments : List (String × MicromambaEnvironment)
  config_dir : String
  version_config : VersionConfig
  creation_lock : Nat
deriving DecidableEq, Repr

/-- `impl Clone for MicromambaManager` (`src/micromamba.rs:182`–`194`):
every bookkeeping field is cloned, the creation lock is `Arc::clone`d —
the same underlying mutex. -/
def MicromambaManager.cloneManager (m : MicromambaManager) :
    MicromambaManager :=
  { pm_path := m.pm_path
    pm_type := m.pm_type
    environments := m.environments
    config_dir := m.config_dir
    version_config := m.version_config
    creation_lock := m.creation_lock }

/-- Held/free state of every mutex in the process, by identity. -/
def LockHeap := Nat → Bool

/-- Acquire the mutex named `id`: fails (`none`) when it is already held,
otherwise returns the heap with that mutex held. -/
def acquireLock (locks : LockHeap) (id : Nat) : Option LockHeap :=
  if locks id then none
  else some (fun j => if j = id then true else locks j)

/-- `MicromambaManager::get_global_manager` (`src/micromamba.rs:309`–`326`)
given the current global cell: on first use the freshly constructed
manager is stored, afterwards the stored one is reused; the caller always
receives a clone of the stored manager. Returns (handle, new cell). -/
def get_global_manager (global : Option MicromambaManager)
    (fresh : MicromambaManager) : MicromambaManager × Option MicromambaManager :=
  match global with
  | some g => (g.cloneManager, some g)
  | none => (fresh.cloneManager, some fresh)

/-! ## Bulk environment creation (`src/env.rs:268`–`339`)

The per-target `manager.create_environment(&yaml_file, dry_run)` call is
the oracle `res`; the loop counts successes and failures and only after
every target has been attempted turns a positive failure count into an
overall error. -/

/-- The counting loop (`src/env.rs:271`–`325`). -/
def createLoopCounts (res : String → Except EnvError Unit) :
    List String → Nat × Nat → Nat × Nat
  | [], acc => acc
  | e :: rest, (s, f) =>
    match res e with
    | .ok _ => createLoopCounts res rest (s + 1, f)
    | .error _ => createLoopCounts res rest (s, f + 1)

/-- The loop plus the aggregate verdict of `execute_env_create`
(`src/env.rs:268`–`339`): (successes, failures, overall result). -/
def execute_env_create_loop (envs : List String)
    (res : String → Except EnvError Unit) :
    Nat × Nat × Except EnvError Unit :=
  let counts := createLoopCounts res envs (0, 0)
  ( counts.1, counts.2,
    if counts.2 > 0 then
      .error (.Execution (Nat.repr counts.2 ++ " environments failed to create"))
    else .ok () )

/-! ## Concrete inputs used by the witnesses and counterexamples -/

/-- A parsed YAML document whose `dependencies` key maps to an empty
sequence. -/
def cfgEmptyDeps : Yaml :=
  .map [("name", .str "demo"), ("dependencies", .seq [])]

/-- A parsed YAML document with a `name` field and two dependencies. -/
def cfgTwoDeps : Yaml :=
  .map [("name", .str "demo"),
        ("dependencies", .seq [.str "python=3.10", .str "numpy"])]

/-- A well-formed env-run invocation. -/
def demoRunArgs : EnvRunArgs :=
  { name := some "xdxtools-core"
    command := some "echo hello | head -1"
    script := none
    args := []
    cwd := "."
    env := []
    no_capture := false }

/-- The same invocation with a malformed environment-variable pair. -/
def demoBadEnvArgs : EnvRunArgs :=
  { demoRunArgs with env := ["BADPAIR"] }

/-- A concrete manager value. -/
def demoManager : MicromambaManager :=
  { pm_path := "/usr/local/bin/micromamba"
    pm_type := .Micromamba
    environments := []
    config_dir := "/home/user/.cache/xdxtools/configs"
    version_config := VersionConfig.default
    creation_lock := 0 }

/-- A host state whose target binary path `/opt/mm/micromamba` already
exists. -/
def demoInstaller : InstallerEnv :=
  { arch := "x86_64"
    os := "linux"
    micromambaInstallDirVar := some "/opt/mm"
    xdgDataHomeVar := none
    homeDir := none
    currentExeDir := none
    currentDir := none
    createDirOk := true
    pathExists := fun _ => true }

/-! ## Helper lemmas -/

theorem findFirstAvailable_eq_none (avail : PackageManager → Bool)
    (l : List PackageManager) (h : ∀ k ∈ l, avail k = false) :
    findFirstAvailable avail l = none := by
  induction l with
  | nil => rfl
  | cons p rest ih =>
    simp only [findFirstAvailable, h p (List.mem_cons_self p rest)]
    exact ih (fun k hk => h k (List.mem_cons_of_mem p hk))

theorem countP_ok_add_countP_bad (res : String → Except EnvError Unit)
    (envs : List String) : envs.countP (fun e => (res e).isOk)
      + envs.countP (fun e => !(res e).isOk) = envs.length := by
  induction envs with
  | nil => rfl
  | cons e rest ih =>
    simp only [List.countP_cons, List.length_cons]
    cases hre : (res e).isOk <;> simp [hre] <;> omega

theorem createLoopCounts_eq (res : String → Except EnvError Unit)
    (envs : List String) : ∀ s f, createLoopCounts res envs (s, f)
      = (s + envs.countP (fun e => (res e).isOk),
         f + envs.countP (fun e => !(res e).isOk)) := by
  induction envs with
  | nil => intro s f; simp [createLoopCounts]
  | cons e rest ih =>
    intro s f
    cases hr : res e with
    | ok u =>
      simp [createLoopCounts, hr, ih, List.countP_cons, Except.isOk,
        Except.toBool]
      omega
    | error err =>
      simp [createLoopCounts, hr, ih, List.countP_cons, Except.isOk,
        Except.toBool]
      omega

set_option maxRecDepth 10000 in
set_option maxHeartbeats 1000000 in
theorem display_not_contains_141 : ∀ c : Fin 256, c.val ≠ 141 →
    strContainsSub (EnvError.display (.Execution (commandFailedMsg (some c.val))))
      "exit code Some(141)" = false := by
  decide

set_option maxRecDepth 10000 in
set_option maxHeartbeats 1000000 in
theorem msg_contains_code : ∀ c : Fin 256,
    strContainsSub (commandFailedMsg (some c.val)) (Nat.repr c.val) = true := by
  decide

theorem envPairsCheck_error (l : List String) (p : String) (hp : p ∈ l)
    (hne : strContainsChar p '=' = false) :
    ∃ m, validate_args.envPairsCheck l = .error (.Validation m) := by
  induction l with
  | nil => cases hp
  | cons q rest ih =>
    by_cases hq : strContainsChar q '=' = true
    · rcases List.mem_cons.mp hp with rfl | hp2
      · rw [hq] at hne
        cases hne
      · obtain ⟨m, hm⟩ := ih hp2
        exact ⟨m, by simp [validate_args.envPairsCheck, hq, hm]⟩
    · refine ⟨"Invalid environment variable format: " ++ q
        ++ ". Expected KEY=VALUE", ?_⟩
      simp [validate_args.envPairsCheck, Bool.eq_false_iff.mpr hq]

theorem validate_args_error_of_bad_env (a : EnvRunArgs) (se : String → Bool)
    (p : String) (hp : p ∈ a.env) (hne : strContainsChar p '=' = false) :
    ∃ m, validate_args a se = .error (.Validation m) := by
  obtain ⟨m, hm⟩ := envPairsCheck_error a.env p hp hne
  unfold validate_args
  dsimp only
  by_cases h1 : (a.command.isNone && a.script.isNone
      && !(if a.name.isSome then !a.args.isEmpty
           else decide (a.args.length > 1))) = true
  · rw [if_pos h1]
    exact ⟨_, rfl⟩
  · rw [if_neg h1]
    by_cases h2 : (a.command.isSome && a.script.isSome) = true
    · rw [if_pos h2]
      exact ⟨_, rfl⟩
    · rw [if_neg h2]
      cases hs : a.script with
      | none => exact ⟨m, hm⟩
      | some s =>
        dsimp only
        by_cases h3 : (!se s) = true
        · rw [if_pos h3]
          exact ⟨_, rfl⟩
        · rw [if_neg h3]
          exact ⟨m, hm⟩

theorem get_env_name_shape (a : EnvRunArgs) :
    (∃ n, a.get_env_name = .ok n)
    ∨ (∃ m, a.get_env_name = .error (.Validation m)) := by
  unfold EnvRunArgs.get_env_name
  cases a.name
  · cases a.args <;> simp
  · simp

theorem get_command_shape (a : EnvRunArgs) :
    (∃ c, a.get_command = .ok c)
    ∨ (∃ m, a.get_command = .error (.Validation m)) := by
  unfold EnvRunArgs.get_command
  cases a.command
  · by_cases h : (a.args.drop (if a.name.isSome then 0 else 1)).isEmpty <;>
      simp [h]
  · simp

theorem resolveFullCommand_shape (a : EnvRunArgs) :
    (∃ c, resolveFullCommand a = .ok c)
    ∨ (∃ m, resolveFullCommand a = .error (.Validation m)) := by
  unfold resolveFullCommand
  cases a.script
  · exact get_command_shape a
  · simp

/-! ## Claim C1 -/

/-- C1 counterexample: the claim says `validate_yaml` reports the document
syntactically valid exactly when it contains a non-empty dependency list;
the document `{name: demo, dependencies: []}` has an empty dependency
list yet is reported syntactically valid (the code only tests presence of
the `dependencies` key), so the claimed equivalence is false. -/
theorem C1_counterexample :
    ¬ (((validate_yaml_doc cfgEmptyDeps "demo.yaml").validation.syntax_valid = true)
       ↔ specHasNonEmptyDepList cfgEmptyDeps = true) := by
  decide

/-- C1 (amended): `validate_yaml` reports the document syntactically valid
exactly when the `dependencies` key is present (whatever its value, even
an empty list); on a document whose `dependencies` value is a sequence it
returns `estimated_packages` equal to the sequence length (so on one with
a `name` field and a non-empty dependency sequence, `syntax_valid = true`
and `estimated_packages` = length); on a document with no `dependencies`
key it returns `syntax_valid = false` and `estimated_packages = 0`; the
estimated size is always the fixed 10 MB per-package multiplier times the
estimated package count, and the declared `name` is reported as the
environment. -/
theorem C1_validate_yaml (config : Yaml) (path : String) :
    ((validate_yaml_doc config path).validation.syntax_valid
        = (config.get "dependencies").isSome)
    ∧ (validate_yaml_doc config path).estimated_size_mb
        = (validate_yaml_doc config path).estimated_packages * 10
    ∧ (∀ l, (config.get "dependencies").bind Yaml.asSequence = some l →
        (validate_yaml_doc config path).validation.syntax_valid = true
        ∧ (validate_yaml_doc config path).estimated_packages = l.length)
    ∧ ((config.get "dependencies") = none →
        (validate_yaml_doc config path).validation.syntax_valid = false
        ∧ (validate_yaml_doc config path).estimated_packages = 0)
    ∧ (∀ n, (config.get "name") = some (.str n) →
        (validate_yaml_doc config path).environment = n) := by
  refine ⟨rfl, rfl, ?_, ?_, ?_⟩
  · intro l hl
    cases hd : config.get "dependencies" with
    | none =>
      rw [hd] at hl
      cases hl
    | some d =>
      rw [hd] at hl
      rw [Option.some_bind] at hl
      constructor
      · simp [validate_yaml_doc, hd]
      · simp [validate_yaml_doc, hd, hl]
  · intro hd
    constructor
    · simp [validate_yaml_doc, hd]
    · simp [validate_yaml_doc, hd]
  · intro n hn
    simp [validate_yaml_doc, hn, Yaml.asStr]

/-- C1 witness: on a document with a `name` field and two dependencies,
`validate_yaml` reports syntax-valid, two estimated packages, 20 MB, and
the declared name. -/
theorem C1_validate_yaml_witness :
    (validate_yaml_doc cfgTwoDeps "demo.yaml").validation.syntax_valid = true
    ∧ (validate_yaml_doc cfgTwoDeps "demo.yaml").estimated_packages = 2
    ∧ (validate_yaml_doc cfgTwoDeps "demo.yaml").estimated_size_mb
        = (validate_yaml_doc cfgTwoDeps "demo.yaml").estimated_packages * 10
    ∧ (validate_yaml_doc cfgTwoDeps "demo.yaml").environment = "demo" := by
  have h := C1_validate_yaml cfgTwoDeps "demo.yaml"
  have hseq := h.2.2.1 [.str "python=3.10", .str "numpy"] (by rfl)
  exact ⟨hseq.1, hseq.2, h.2.1, h.2.2.2.2 "demo" (by rfl)⟩

/-! ## Claim C2 -/

/-- C2: a run-in-environment invocation whose subprocess terminates with
the broken-pipe exit code 141 returns success rather than an execution
error, while every other non-zero exit code (any code a Unix process can
report, i.e. below 256) yields an execution error carrying that exit
code's formatted message. -/
theorem C2_broken_pipe (c : Nat) (hc : c < 256) (h0 : c ≠ 0) (h141 : c ≠ 141)
    (a : EnvRunArgs) (se : String → Bool) (n fc : String)
    (hn : a.get_env_name = .ok n) (hfc : resolveFullCommand a = .ok fc)
    (hv : validate_args a se = .ok ()) :
    execute_env_run a se true (.ok true) (some 141) = (.ok (), true)
    ∧ classified_run (some 141) = .ok ()
    ∧ execute_env_run a se true (.ok true) (some c)
        = (.error (.Execution (commandFailedMsg (some c))), true)
    ∧ strContainsSub (commandFailedMsg (some c)) (Nat.repr c) = true := by
  have hrun : ∀ exit, execute_env_run a se true (.ok true) exit
      = (classified_run exit, true) := by
    intro exit
    simp [execute_env_run, hn, hfc, hv]
  have hclass : classified_run (some c)
      = .error (.Execution (commandFailedMsg (some c))) := by
    unfold classified_run run_in_environment_extended_exit
    rw [if_neg (by simp [h0])]
    simp [handleRunResult, display_not_contains_141 ⟨c, hc⟩ h141]
  refine ⟨?_, by rfl, ?_, msg_contains_code ⟨c, hc⟩⟩
  · rw [hrun]
    rfl
  · rw [hrun, hclass]

/-- C2 witness: the concrete invocation succeeds on exit code 141 and
fails with the code-carrying execution error on exit code 7. -/
theorem C2_broken_pipe_witness :
    execute_env_run demoRunArgs (fun _ => false) true (.ok true) (some 141)
      = (.ok (), true)
    ∧ execute_env_run demoRunArgs (fun _ => false) true (.ok true) (some 7)
      = (.error (.Execution (commandFailedMsg (some 7))), true) := by
  have h := C2_broken_pipe 7 (by decide) (by decide) (by decide)
    demoRunArgs (fun _ => false) "xdxtools-core" "echo hello | head -1"
    rfl rfl rfl
  exact ⟨h.1, h.2.2.1⟩

/-! ## Claim C3 -/

/-- C3: when the existence check reports the environment missing, the
run-in-environment operation fails immediately with an execution error
naming the environment, and the backend's run subcommand is never invoked
(the invocation flag is false on every path with a negative existence
check, whatever else happens). -/
theorem C3_missing_environment (a : EnvRunArgs) (se : String → Bool)
    (managerOk : Bool) (exit : Option Nat) (n fc : String)
    (hn : a.get_env_name = .ok n) (hfc : resolveFullCommand a = .ok fc)
    (hv : validate_args a se = .ok ()) :
    execute_env_run a se true (.ok false) exit
      = (.error (.Execution ("Environment '" ++ n ++ "' does not exist")), false)
    ∧ (execute_env_run a se managerOk (.ok false) exit).2 = false := by
  constructor
  · simp [execute_env_run, hn, hfc, hv]
  · unfold execute_env_run
    cases h1 : a.get_env_name with
    | error e => rfl
    | ok n1 =>
      cases h2 : resolveFullCommand a with
      | error e => rfl
      | ok fc1 =>
        cases h3 : validate_args a se with
        | error e => rfl
        | ok u =>
          cases u
          cases managerOk
          · rfl
          · rfl

/-- C3 witness: the concrete invocation against a missing environment
fails with the execution error and no run invocation. -/
theorem C3_missing_environment_witness :
    execute_env_run demoRunArgs (fun _ => false) true (.ok false) (some 0)
      = (.error (.Execution "Environment 'xdxtools-core' does not exist"), false) :=
  (C3_missing_environment demoRunArgs (fun _ => false) true (some 0)
    "xdxtools-core" "echo hello | head -1" rfl rfl rfl).1

/-! ## Claim C4 -/

/-- C4: if the caller-supplied environment-variable list contains an entry
without an `=` separator, the run operation fails with a validation error
and the run subprocess is never spawned (so no environment variable is
ever applied to a process). -/
theorem C4_malformed_env_pair (a : EnvRunArgs) (se : String → Bool)
    (managerOk : Bool) (envExistsRes : Except EnvError Bool) (exit : Option Nat)
    (p : String) (hp : p ∈ a.env) (hne : strContainsChar p '=' = false) :
    (execute_env_run a se managerOk envExistsRes exit).2 = false
    ∧ ∃ m, (execute_env_run a se managerOk envExistsRes exit).1
        = .error (.Validation m) := by
  rcases get_env_name_shape a with ⟨n, hn⟩ | ⟨m, hm⟩
  · rcases resolveFullCommand_shape a with ⟨fc, hfc⟩ | ⟨m2, hm2⟩
    · obtain ⟨m3, hm3⟩ := validate_args_error_of_bad_env a se p hp hne
      exact ⟨by simp [execute_env_run, hn, hfc, hm3],
        ⟨m3, by simp [execute_env_run, hn, hfc, hm3]⟩⟩
    · exact ⟨by simp [execute_env_run, hn, hm2],
        ⟨m2, by simp [execute_env_run, hn, hm2]⟩⟩
  · exact ⟨by simp [execute_env_run, hm],
      ⟨m, by simp [execute_env_run, hm]⟩⟩

/-- C4 witness: the invocation carrying the pair `BADPAIR` fails with a
validation error and never spawns the run subprocess. -/
theorem C4_malformed_env_pair_witness :
    (execute_env_run demoBadEnvArgs (fun _ => false) true (.ok true) (some 0)).2
      = false
    ∧ ∃ m, (execute_env_run demoBadEnvArgs (fun _ => false) true (.ok true)
        (some 0)).1 = .error (.Validation m) :=
  C4_malformed_env_pair demoBadEnvArgs (fun _ => false) true (.ok true) (some 0)
    "BADPAIR" (List.mem_singleton.mpr rfl) (by decide)

/-! ## Claim C5 -/

/-- C5: a forced backend kind that fails its availability check makes the
detector fall back to the standard priority probe; `detect_specific` and
`detect` always return `Ok`, and the `None` kind is the terminal result
when no backend in the probe order passes. -/
theorem C5_forced_fallback (avail : PackageManager → Bool)
    (pm : PackageManager) (d : PackageManagerDetector)
    (h : avail pm = false) :
    d.detect_specific avail pm = d.detect avail
    ∧ (∃ r d2, d.detect avail = .ok (r, d2))
    ∧ (d.detected = none → (∀ k ∈ d.detection_order, avail k = false) →
        ∃ d2, d.detect avail = .ok (PackageManager.None, d2)) := by
  refine ⟨?_, ?_, ?_⟩
  · simp [PackageManagerDetector.detect_specific, h]
  · cases hd : d.detected with
    | some pm2 => exact ⟨pm2, d, by simp [PackageManagerDetector.detect, hd]⟩
    | none =>
      cases hf : findFirstAvailable avail d.detection_order with
      | some pm2 =>
        exact ⟨pm2, { d with detected := some pm2 },
          by simp [PackageManagerDetector.detect, hd, hf]⟩
      | none =>
        exact ⟨.None, { d with detected := some .None },
          by simp [PackageManagerDetector.detect, hd, hf]⟩
  · intro hd hall
    exact ⟨{ d with detected := some .None },
      by simp [PackageManagerDetector.detect, hd,
        findFirstAvailable_eq_none avail _ hall]⟩

/-- C5 witness: on a host with no working backend, forcing micromamba
falls back to the standard probe and resolves to the `None` kind without
an error. -/
theorem C5_forced_fallback_witness :
    PackageManagerDetector.new.detect_specific (fun _ => false) .Micromamba
      = PackageManagerDetector.new.detect (fun _ => false)
    ∧ ∃ d2, PackageManagerDetector.new.detect (fun _ => false)
        = .ok (PackageManager.None, d2) := by
  refine ⟨(C5_forced_fallback (fun _ => false) .Micromamba
    PackageManagerDetector.new rfl).1, ?_⟩
  exact (C5_forced_fallback (fun _ => false) .Micromamba
    PackageManagerDetector.new rfl).2.2 rfl (fun k _ => rfl)

/-! ## Claim C6 -/

/-- C6: when the installer's target binary path already exists,
`install_micromamba` issues zero network requests, performs no
download/extract step, and returns the existing path unchanged. -/
theorem C6_install_idempotent (s : InstallerEnv) (net : Nat → AttemptOutcome)
    (existsAfter : Bool) (t pl p : String)
    (h1 : archTarget s.arch = .ok t) (h2 : osPlatform s.os s.arch = .ok pl)
    (h3 : targetBinaryPath s = .ok p) (h4 : s.pathExists p = true) :
    install_micromamba s net existsAfter = (.ok p, ⟨0, false⟩) := by
  simp [install_micromamba, h1, h2, h3, h4]

/-- C6 witness: on a concrete linux/x86_64 host whose target path
`/opt/mm/micromamba` exists, the installer returns it with zero network
requests and no extraction. -/
theorem C6_install_idempotent_witness :
    install_micromamba demoInstaller (fun _ => .htmlPage) false
      = (.ok "/opt/mm/micromamba", ⟨0, false⟩) :=
  C6_install_idempotent demoInstaller (fun _ => .htmlPage) false
    "x64" "linux-64" "/opt/mm/micromamba" rfl rfl rfl rfl

/-! ## Claim C7 -/

/-- C7: the tabular listing parser skips commented and blank lines; on any
other line the first whitespace token is the name, a literal `*` second
token marks the entry active with the prefix taken from the third token,
and otherwise the entry is inactive with the prefix taken from the second
token; in particular `base * /opt/pm/base` parses to an active `base`
entry and `demo /opt/pm/envs/demo` to an inactive `demo` entry. -/
theorem C7_listing_parse (line : String)
    (h1 : strStartsWith line "#" = false) (h2 : rustTrim line ≠ "") :
    (∀ name p extra, splitWhitespace line = name :: "*" :: p :: extra →
        parseCondaEnvLine line
          = some { name := name, prefixPath := p, is_active := true })
    ∧ (∀ name p extra, splitWhitespace line = name :: p :: extra → p ≠ "*" →
        parseCondaEnvLine line
          = some { name := name, prefixPath := p, is_active := false })
    ∧ (∀ l2, strStartsWith l2 "#" = true → parseCondaEnvLine l2 = none)
    ∧ (∀ l2, rustTrim l2 = "" → parseCondaEnvLine l2 = none)
    ∧ parse_conda_env_list "base * /opt/pm/base\ndemo /opt/pm/envs/demo"
        = .ok [{ name := "base", prefixPath := "/opt/pm/base", is_active := true },
               { name := "demo", prefixPath := "/opt/pm/envs/demo", is_active := false }] := by
  refine ⟨?_, ?_, ?_, ?_, by rfl⟩
  · intro name p extra hsplit
    simp [parseCondaEnvLine, h1, h2, hsplit]
  · intro name p extra hsplit hp
    simp [parseCondaEnvLine, h1, h2, hsplit, hp]
  · intro l2 hc
    simp [parseCondaEnvLine, hc]
  · intro l2 hb
    simp [parseCondaEnvLine, hb]

/-- C7 witness: the two example lines parse to the claimed entries. -/
theorem C7_listing_parse_witness :
    parseCondaEnvLine "base * /opt/pm/base"
      = some { name := "base", prefixPath := "/opt/pm/base", is_active := true }
    ∧ parseCondaEnvLine "demo /opt/pm/envs/demo"
      = some { name := "demo", prefixPath := "/opt/pm/envs/demo", is_active := false } :=
  ⟨(C7_listing_parse "base * /opt/pm/base" (by decide) (by decide)).1
      "base" "/opt/pm/base" [] (by decide),
   (C7_listing_parse "demo /opt/pm/envs/demo" (by decide) (by decide)).2.1
      "demo" "/opt/pm/envs/demo" [] (by decide) (by decide)⟩

/-! ## Claim C8 -/

/-- C8: the bulk environment-creation loop attempts every target
independently (successes plus failures always account for every target),
reports aggregate success and failure counts, and the overall result is
an error exactly when at least one target failed. -/
theorem C8_bulk_create (envs : List String)
    (res : String → Except EnvError Unit) :
    (execute_env_create_loop envs res).1
        = envs.countP (fun e => (res e).isOk)
    ∧ (execute_env_create_loop envs res).2.1
        = envs.countP (fun e => !(res e).isOk)
    ∧ (execute_env_create_loop envs res).1
        + (execute_env_create_loop envs res).2.1 = envs.length
    ∧ ((execute_env_create_loop envs res).2.2 = .ok ()
        ↔ ∀ e ∈ envs, (res e).isOk = true)
    ∧ ((∃ err, (execute_env_create_loop envs res).2.2 = .error err)
        ↔ ∃ e ∈ envs, (res e).isOk = false) := by
  have hc : createLoopCounts res envs (0, 0)
      = (envs.countP (fun e => (res e).isOk),
         envs.countP (fun e => !(res e).isOk)) := by
    rw [createLoopCounts_eq]
    simp
  have h1 : (execute_env_create_loop envs res).1
      = envs.countP (fun e => (res e).isOk) := by
    simp only [execute_env_create_loop, hc]
  have h2 : (execute_env_create_loop envs res).2.1
      = envs.countP (fun e => !(res e).isOk) := by
    simp only [execute_env_create_loop, hc]
  have hlen : envs.countP (fun e => (res e).isOk)
      + envs.countP (fun e => !(res e).isOk) = envs.length :=
    countP_ok_add_countP_bad res envs
  have hres : (execute_env_create_loop envs res).2.2
      = (if 0 < envs.countP (fun e => !(res e).isOk) then
           Except.error (.Execution
             (Nat.repr (envs.countP (fun e => !(res e).isOk))
               ++ " environments failed to create"))
         else .ok ()) := by
    simp only [execute_env_create_loop, hc]
  refine ⟨h1, h2, by rw [h1, h2]; exact hlen, ?_, ?_⟩
  all_goals by_cases hpos : 0 < envs.countP (fun e => !(res e).isOk)
  · rw [hres, if_pos hpos]
    obtain ⟨e, he, hbad⟩ := List.countP_pos_iff.mp hpos
    simp only [Bool.not_eq_true'] at hbad
    constructor
    · intro habs
      exact absurd habs (by simp)
    · intro hall
      rw [hall e he] at hbad
      cases hbad
  · have hzero : envs.countP (fun e => !(res e).isOk) = 0 := by omega
    rw [hres, if_neg hpos]
    have hall : ∀ e ∈ envs, (res e).isOk = true := by
      intro e he
      have := List.countP_eq_zero.mp hzero e he
      simpa using this
    exact iff_of_true rfl hall
  · rw [hres, if_pos hpos]
    obtain ⟨e, he, hbad⟩ := List.countP_pos_iff.mp hpos
    simp only [Bool.not_eq_true'] at hbad
    exact ⟨by intro _; exact ⟨e, he, hbad⟩, by intro _; exact ⟨_, rfl⟩⟩
  · have hzero : envs.countP (fun e => !(res e).isOk) = 0 := by omega
    rw [hres, if_neg hpos]
    constructor
    · rintro ⟨err, herr⟩
      cases herr
    · rintro ⟨e, he, hbad⟩
      have := List.countP_eq_zero.mp hzero e he
      simp [hbad] at this

/-- C8 witness: with two targets of which the second fails, the loop
reports one success and one failure, both targets accounted for, and an
overall error. -/
theorem C8_bulk_create_witness :
    (execute_env_create_loop ["xdxtools-core", "xdxtools-extra"]
        (fun e => if e = "xdxtools-core" then .ok ()
                  else .error (.Execution "boom"))).1
      + (execute_env_create_loop ["xdxtools-core", "xdxtools-extra"]
        (fun e => if e = "xdxtools-core" then .ok ()
                  else .error (.Execution "boom"))).2.1 = 2
    ∧ (∃ err, (execute_env_create_loop ["xdxtools-core", "xdxtools-extra"]
        (fun e => if e = "xdxtools-core" then .ok ()
                  else .error (.Execution "boom"))).2.2 = .error err) := by
  have h := C8_bulk_create ["xdxtools-core", "xdxtools-extra"]
    (fun e => if e = "xdxtools-core" then .ok ()
              else .error (.Execution "boom"))
  refine ⟨by rw [h.1, h.2.1]; rfl, ?_⟩
  exact h.2.2.2.2.mpr ⟨"xdxtools-extra", by simp, by rfl⟩

/-! ## Claim C9 -/

/-- C9: cloning a manager (including every handle the global-singleton
accessor returns) duplicates the bookkeeping fields but preserves the
identity of the creation lock, so once one clone holds the lock no other
clone can acquire it — mutating operations on clones are serialized. -/
theorem C9_clone_lock (m g : MicromambaManager)
    (st : Option MicromambaManager) (f f2 : MicromambaManager)
    (locks locks2 : LockHeap)
    (h : acquireLock locks m.cloneManager.creation_lock = some locks2) :
    (m.cloneManager.pm_path = m.pm_path
      ∧ m.cloneManager.pm_type = m.pm_type
      ∧ m.cloneManager.environments = m.environments
      ∧ m.cloneManager.config_dir = m.config_dir
      ∧ m.cloneManager.version_config = m.version_config)
    ∧ m.cloneManager.creation_lock = m.creation_lock
    ∧ acquireLock locks2 m.creation_lock = none
    ∧ (get_global_manager (some g) f).1.creation_lock = g.creation_lock
    ∧ (get_global_manager ((get_global_manager st f).2) f2).1.creation_lock
        = (get_global_manager st f).1.creation_lock := by
  refine ⟨⟨rfl, rfl, rfl, rfl, rfl⟩, rfl, ?_, rfl, ?_⟩
  · unfold acquireLock at h ⊢
    by_cases hl : locks m.cloneManager.creation_lock
    · simp [hl] at h
    · simp [hl] at h
      subst h
      simp [MicromambaManager.cloneManager]
  · cases st <;> rfl

/-- C9 witness: the concrete manager's clone shares its lock, and with
that lock held by the clone the original cannot acquire it. -/
theorem C9_clone_lock_witness :
    demoManager.cloneManager.creation_lock = demoManager.creation_lock
    ∧ acquireLock
        (fun j => if j = demoManager.cloneManager.creation_lock then true else false)
        demoManager.creation_lock = none := by
  have h := C9_clone_lock demoManager demoManager none demoManager demoManager
    (fun _ => false)
    (fun j => if j = demoManager.cloneManager.creation_lock then true else false)
    rfl
  exact ⟨h.2.1, h.2.2.1⟩

/-! ## Claim C10 -/

/-- C10: the tabular listing parser returns `Ok` on every input; a line
with no tokens or a single token is silently skipped, as is a line whose
second token is `*` but which has no third token — none of them produce a
parse error or a malformed entry. -/
theorem C10_parser_never_fails (content line name : String) :
    (∃ envs, parse_conda_env_list content = .ok envs)
    ∧ (splitWhitespace line = [] → parseCondaEnvLine line = none)
    ∧ (splitWhitespace line = [name] → parseCondaEnvLine line = none)
    ∧ (splitWhitespace line = [name, "*"] → parseCondaEnvLine line = none) := by
  refine ⟨⟨_, rfl⟩, ?_, ?_, ?_⟩ <;> intro hsplit <;>
    by_cases hg : (strStartsWith line "#" || rustTrim line = "") = true <;>
    simp [parseCondaEnvLine, hg, hsplit]

/-- C10 witness: a block of only skippable lines parses to the empty `Ok`
list, and the one-token and dangling-`*` lines are each skipped. -/
theorem C10_parser_never_fails_witness :
    parse_conda_env_list "onlyname\nactive *" = .ok []
    ∧ parseCondaEnvLine "onlyname" = none
    ∧ parseCondaEnvLine "active *" = none := by
  refine ⟨by rfl, ?_, ?_⟩
  · exact (C10_parser_never_fails "" "onlyname" "onlyname").2.2.1 (by decide)
  · exact (C10_parser_never_fails "" "active *" "active").2.2.2 (by decide)

end Enva
